import Mathlib

/-!
Verification of the hyperfan GUI layer (hyperfan-gui, TypeScript/React) and of
the spec-described detection/control core against the repository's
specification.  Pure functions of the source are embedded as Lean functions;
React state updates are embedded as explicit state-passing functions; the
Tauri `invoke` boundary is embedded as an explicit outcome parameter
(`Except String α`).  JavaScript numbers are embedded as `ℚ` (or `ℤ` where the
source only ever holds integers); optional fields are `Option`.
-/

namespace Hyperfan

/-- Character-list version of a starts-with test; first argument is the
pattern.  Used to embed JavaScript `String.prototype.includes`. -/
def listStartsWith : List Char → List Char → Bool
  | [], _ => true
  | _ :: _, [] => false
  | p :: ps, c :: cs => p == c && listStartsWith ps cs

/-- True when the pattern occurs as a contiguous run somewhere in the list. -/
def listHasSub (pat : List Char) : List Char → Bool
  | [] => listStartsWith pat []
  | c :: cs => listStartsWith pat (c :: cs) || listHasSub pat cs

/-- Embedding of JavaScript `s.includes(pat)` (substring containment). -/
def jsIncludes (s pat : String) : Bool :=
  listHasSub pat.data s.data

/-- Embedding of the `TempSource` interface of `AutoDetectModal.tsx`. -/
structure TempSource where
  sensor_path : String
  sensor_name : String
  sensor_label : Option String
  current_temp : Option ℚ
  chip_name : String
deriving DecidableEq

/-- Embedding of the `FanMapping` interface of `AutoDetectModal.tsx`:
one detected PWM-to-fan pairing with its confidence and measured
characteristics. -/
structure FanMapping where
  fan_name : String
  pwm_name : String
  confidence : ℚ
  temp_sources : List TempSource
  response_time_ms : Option ℤ
  min_pwm : Option ℤ
  max_rpm : Option ℤ
deriving DecidableEq

/-- The React state of `AutoDetectModal` (the four `useState` hooks). -/
structure ModalState where
  detecting : Bool
  detectedMappings : List FanMapping
  progress : ℚ
  statusMessage : String
deriving DecidableEq

/-- The modal's initial state: the hooks start at `false`, `[]`, `0`, `''`. -/
def initialModalState : ModalState :=
  { detecting := false, detectedMappings := [], progress := 0, statusMessage := "" }

/-- The status message set by `startDetection`'s catch branch when the error
text indicates missing root privileges. -/
def rootPermissionsMessage : String :=
  "❌ Root permissions required! Please run: sudo ./run.sh"

/-- Embedding of `startDetection` in `AutoDetectModal.tsx`.  The
`invoke('autodetect_mappings')` boundary is passed in as `outcome`.  On
success the mappings are stored and the status reads complete; on failure the
catch branch inspects the error text: a message containing
`Insufficient permissions` or `run as root` produces the root-permissions
status, anything else the generic retry prompt.  The catch branch never calls
`invoke` again (no retry), and never touches `detectedMappings`; `finally`
clears `detecting`. -/
def startDetection (outcome : Except String (List FanMapping)) (s : ModalState) : ModalState :=
  match outcome with
  | Except.ok detected =>
      { s with detecting := false, progress := 100,
               statusMessage := "Detection complete!",
               detectedMappings := detected }
  | Except.error e =>
      { s with detecting := false,
               statusMessage :=
                 if jsIncludes e "Insufficient permissions" || jsIncludes e "run as root" then
                   rootPermissionsMessage
                 else
                   "Detection failed. Please try again." }

/-- Embedding of the render guard on the Apply Mappings button
(`AutoDetectModal.tsx`): it is shown exactly when not detecting and at least
one mapping was detected. -/
def applyButtonVisible (s : ModalState) : Bool :=
  !s.detecting && !s.detectedMappings.isEmpty

/-- Observable result of confirming the dialog: which mappings were handed to
`onConfirm` (the applied set), which mappings were surfaced to the user as
refused, and whether the modal stays open. -/
structure ConfirmResult where
  applied : List FanMapping
  refusalsSurfaced : List FanMapping
  modalOpen : Bool
deriving DecidableEq

/-- Embedding of `handleConfirm` in `AutoDetectModal.tsx`: it calls
`onConfirm(detectedMappings)` with the detected list as-is and closes the
modal.  No mapping is filtered out and no refusal of any kind is surfaced. -/
def handleConfirm (s : ModalState) : ConfirmResult :=
  { applied := s.detectedMappings, refusalsSurfaced := [], modalOpen := false }

/-- A detected mapping whose confidence (0.30) is at or below the 0.40
refusal threshold published by the specification. -/
def lowConfidenceMapping : FanMapping :=
  { fan_name := "fan1", pwm_name := "pwm1", confidence := 3/10,
    temp_sources := [], response_time_ms := none, min_pwm := none, max_rpm := none }

/-- A modal state after a detection run that produced only the
low-confidence mapping. -/
def lowConfidenceModalState : ModalState :=
  { detecting := false, detectedMappings := [lowConfidenceMapping],
    progress := 100, statusMessage := "Detection complete!" }

/-- Embedding of the `TemperatureSensor` interface of `App.tsx`. -/
structure TemperatureSensor where
  name : String
  input_path : String
  label : Option String
  current_temp : Option ℚ
deriving DecidableEq

/-- Embedding of the `FanSensor` interface of `App.tsx`. -/
structure FanSensor where
  name : String
  input_path : String
  label : Option String
  current_rpm : Option ℤ
deriving DecidableEq

/-- Embedding of the `PwmController` interface of `App.tsx`. -/
structure PwmController where
  name : String
  pwm_path : String
  enable_path : String
  label : Option String
  current_value : Option ℤ
  current_percent : Option ℚ
deriving DecidableEq

/-- Embedding of the `HwmonChip` interface of `App.tsx`. -/
structure HwmonChip where
  name : String
  path : String
  temperatures : List TemperatureSensor
  fans : List FanSensor
  pwms : List PwmController
deriving DecidableEq

/-- The React state of `App` (the `useState` hooks that the claims touch). -/
structure AppState where
  activeTab : String
  chips : Option (List HwmonChip)
  sensorNames : List (String × String)
  mappings : List FanMapping
  showAutoDetectModal : Bool
deriving DecidableEq

/-- Embedding of `fetchHwmon` in `App.tsx`: stores the backend's chip
snapshot (`hw` is what `invoke('get_hwmon_chips')` returned). -/
def fetchHwmon (hw : List HwmonChip) (s : AppState) : AppState :=
  { s with chips := some hw }

/-- Embedding of `handleAutoDetectConfirm` in `App.tsx`: sets the mappings
state to the confirmed list and then refreshes the chip snapshot. -/
def handleAutoDetectConfirm (hw : List HwmonChip) (detected : List FanMapping)
    (s : AppState) : AppState :=
  fetchHwmon hw { s with mappings := detected }

/-- Embedding of JavaScript `Math.round` on a non-negative number:
round half away from zero, i.e. `⌊q + 1/2⌋` (for the non-negative values that
arise here this agrees with `Math.round` exactly). -/
def jsRound (q : ℚ) : ℤ :=
  ⌊q + 1/2⌋

/-- Embedding of the PWM display fallback in `App.tsx`
(`Math.round((p.current_value / 255) * 100)`), used when `current_percent`
is absent. -/
def pwmDisplayPercent (v : ℤ) : ℤ :=
  jsRound ((v : ℚ) / 255 * 100)

/-- Embedding of the Min PWM Start rendering in `AutoDetectModal.tsx`
(`Math.round((mapping.min_pwm / 255) * 100)`). -/
def minPwmStartPercent (v : ℤ) : ℤ :=
  jsRound ((v : ℚ) / 255 * 100)

/-- Embedding of the Response Time cell of the auto-detect results panel:
`mapping.response_time_ms ? \x7b...\x7dms : 'N/A'`.  A JavaScript number is
falsy exactly when it is `0`, so `some 0` renders like `none`. -/
def renderResponseTime : Option ℤ → String
  | none => "N/A"
  | some v => if v = 0 then "N/A" else toString v ++ "ms"

/-- Embedding of the Min PWM Start cell of the auto-detect results panel. -/
def renderMinPwm : Option ℤ → String
  | none => "N/A"
  | some v => if v = 0 then "N/A" else toString (minPwmStartPercent v) ++ "%"

/-- Embedding of the Max RPM cell of the auto-detect results panel. -/
def renderMaxRpm : Option ℤ → String
  | none => "N/A"
  | some v => if v = 0 then "N/A" else toString v ++ " RPM"

/-- Embedding of `GridPosition` in `types/layout.ts`. -/
structure GridPosition where
  row : ℤ
  col : ℤ
  w : ℤ
  h : ℤ
deriving DecidableEq

/-- The four card variants of the `Card` union in `types/layout.ts`. -/
inductive CardType where
  | fanControl
  | curveCard
  | mixerCard
  | sensorCard
deriving DecidableEq

/-- Embedding of the `Card` union of `types/layout.ts`, restricted to the
fields the layout utilities read (`id`, `type`, `position`; the remaining
fields are presentation-only data never consulted by `utils/layout.ts`). -/
structure Card where
  id : String
  ctype : CardType
  title : String
  position : GridPosition
deriving DecidableEq

/-- Embedding of `Section` in `types/layout.ts`. -/
structure Section where
  id : String
  title : String
  cards : List Card
deriving DecidableEq

/-- Embedding of `GridConfig` in `types/layout.ts`. -/
structure GridConfig where
  columns : ℤ
  gutterPx : ℤ
  rowHeightPx : ℤ
deriving DecidableEq

/-- Embedding of `MainConfig` in `types/layout.ts`. -/
structure MainConfig where
  containerPaddingPx : ℤ
  grid : GridConfig
  sections : List Section
deriving DecidableEq

/-- Embedding of `LayoutConfig` in `types/layout.ts`, restricted to the
`main` part read by the layout utilities (app/header/sidebar are
presentation-only). -/
structure LayoutConfig where
  main : MainConfig
deriving DecidableEq

/-- The error string pushed by `validateLayout` when a card exceeds the grid
width. -/
def widthError (columns : ℤ) (c : Card) : String :=
  "Card " ++ c.id ++ (" exceeds grid width (col: " ++ toString c.position.col ++
    ", width: " ++ toString c.position.w ++ ", max columns: " ++ toString columns ++ ")")

/-- The error string pushed by `validateLayout` when a card has a
non-positive position. -/
def positionError (c : Card) : String :=
  "Card " ++ c.id ++ (" has invalid position (col: " ++ toString c.position.col ++
    ", row: " ++ toString c.position.row ++ ")")

/-- The errors `validateLayout` pushes for one card, in push order: first the
grid-width check, then the negative-position check. -/
def cardErrors (columns : ℤ) (c : Card) : List String :=
  (if c.position.col + c.position.w - 1 > columns then [widthError columns c] else []) ++
  (if c.position.col < 1 ∨ c.position.row < 1 then [positionError c] else [])

/-- A card is within bounds: positive column and row, and it does not extend
past the last grid column. -/
def cardFits (columns : ℤ) (c : Card) : Prop :=
  1 ≤ c.position.col ∧ 1 ≤ c.position.row ∧ c.position.col + c.position.w - 1 ≤ columns

instance (columns : ℤ) (c : Card) : Decidable (cardFits columns c) := by
  unfold cardFits; infer_instance

/-- Embedding of `validateLayout` in `utils/layout.ts`: accumulates, over
every section and every card, the per-card errors. -/
def validateLayout (config : LayoutConfig) : List String :=
  config.main.sections.flatMap (fun s => s.cards.flatMap (cardErrors config.main.grid.columns))

/-- The section loop of `findCardById`: the first section whose cards contain
a match wins, and within a section `Array.find` returns the first match. -/
def findCardInSections (cardId : String) : List Section → Option (Card × Section)
  | [] => none
  | s :: rest =>
      match s.cards.find? (fun c => c.id == cardId) with
      | some c => some (c, s)
      | none => findCardInSections cardId rest

/-- Embedding of `findCardById` in `utils/layout.ts`. -/
def findCardById (config : LayoutConfig) (cardId : String) : Option (Card × Section) :=
  findCardInSections cardId config.main.sections

/-- A card placed at column 0 (out of bounds) used to exercise
`validateLayout`. -/
def badCard : Card :=
  { id := "cpu-fan-card", ctype := CardType.fanControl, title := "CPU Fan",
    position := { row := 1, col := 0, w := 2, h := 1 } }

/-- A well-placed card used to exercise `findCardById`. -/
def goodCard : Card :=
  { id := "gpu-sensor-card", ctype := CardType.sensorCard, title := "GPU Temp",
    position := { row := 1, col := 1, w := 2, h := 1 } }

/-- A section holding the two sample cards. -/
def sampleSection : Section :=
  { id := "sec-main", title := "Main", cards := [badCard, goodCard] }

/-- A sample layout configuration with a 12-column grid. -/
def sampleConfig : LayoutConfig :=
  { main := { containerPaddingPx := 16,
              grid := { columns := 12, gutterPx := 8, rowHeightPx := 120 },
              sections := [sampleSection] } }

/-- Modelled from the spec: the CurveEngine's `Curve` (its Rust source is not
under src/; only the GUI is).  An ordered sequence of
(temperature, duty-percent) control points, strictly increasing in
temperature, plus a smoothing factor. -/
structure Curve where
  points : List (ℚ × ℚ)
  smoothing : ℚ
deriving DecidableEq

/-- Modelled from the spec: curve evaluation over the point list — linear
interpolation between the two bracketing points, clamped to the first/last
point's duty outside the domain. -/
def evalSegments : List (ℚ × ℚ) → ℚ → ℚ
  | [], _ => 0
  | [p], _ => p.2
  | p :: q :: rest, t =>
      if t ≤ p.1 then p.2
      else if t ≤ q.1 then p.2 + (t - p.1) * (q.2 - p.2) / (q.1 - p.1)
      else evalSegments (q :: rest) t

/-- Modelled from the spec: the CurveEngine's pure evaluation function. -/
def evalCurve (c : Curve) (t : ℚ) : ℚ :=
  evalSegments c.points t

/-- The example curve of the spec's testable properties:
points (30,30), (60,50), (80,100). -/
def demoCurve : Curve :=
  { points := [(30, 30), (60, 50), (80, 100)], smoothing := 0 }

/-- Control points are strictly increasing in temperature. -/
def strictlyIncreasingTemps (pts : List (ℚ × ℚ)) : Prop :=
  List.Chain' (fun p q => p.1 < q.1) pts

/-- Every control point's duty lies in [0, 100]. -/
def dutiesInRange (pts : List (ℚ × ℚ)) : Prop :=
  ∀ p ∈ pts, 0 ≤ p.2 ∧ p.2 ≤ 100

/-- Modelled from the spec: a validated probe observation for one
PWM-to-fan candidate, as consumed by the ConfidenceScorer (its Rust source
is not under src/).  It carries the baseline noise of the fan channel, the
RPM deltas observed at the probe's duty levels, and the deltas of the
validation repeat. -/
structure ProbeTrace where
  baselineNoise : ℚ
  probeDeltas : List ℚ
  validationDeltas : List ℚ
deriving DecidableEq

/-- Clamp a rational to [0, 1]. -/
def clamp01 (x : ℚ) : ℚ :=
  max 0 (min 1 x)

/-- Mean of a list of rationals (0 for the empty list). -/
def meanDelta (l : List ℚ) : ℚ :=
  l.sum / (l.length : ℚ)

/-- Number of adjacent non-decreasing pairs in a list. -/
def countMonotonePairs : List ℚ → ℕ
  | [] => 0
  | [_] => 0
  | a :: b :: rest => (if a ≤ b then 1 else 0) + countMonotonePairs (b :: rest)

/-- Modelled from the spec: repeatability of the RPM delta across the
validation repeat — closer probe and validation means score higher. -/
def repeatabilityScore (tr : ProbeTrace) : ℚ :=
  clamp01 (1 - |meanDelta tr.probeDeltas - meanDelta tr.validationDeltas| /
    (|meanDelta tr.probeDeltas| + 1))

/-- Modelled from the spec: magnitude of the RPM delta relative to baseline
noise. -/
def magnitudeScore (tr : ProbeTrace) : ℚ :=
  clamp01 (meanDelta tr.probeDeltas / (tr.baselineNoise + 1))

/-- Modelled from the spec: monotonicity of RPM versus duty across the probe
sequence — the fraction of adjacent probe deltas that do not decrease. -/
def monotonicityScore (tr : ProbeTrace) : ℚ :=
  clamp01 ((countMonotonePairs tr.probeDeltas : ℚ) / ((tr.probeDeltas.length : ℚ) - 1))

/-- Modelled from the spec: the ConfidenceScorer's output — a weighted
combination of repeatability, magnitude and monotonicity (the spec leaves the
exact weights tunable), clamped so that the published output contract
(always in [0,1]) holds for any weights.  It is a pure function of the
trace: no hidden randomness. -/
def confidenceScore (w1 w2 w3 : ℚ) (tr : ProbeTrace) : ℚ :=
  clamp01 (w1 * repeatabilityScore tr + w2 * magnitudeScore tr + w3 * monotonicityScore tr)

/-- Prior enable/duty state of a PWM channel captured before the session
first drove it. -/
structure PwmState where
  enable : ℤ
  duty : ℤ
deriving DecidableEq

/-- A channel touched by a probe or control session, with its captured prior
state. -/
structure TouchedChannel where
  id : ℕ
  prior : PwmState
deriving DecidableEq

/-- Modelled from the spec: the three ways a session can end; SafetyGuard
behaves identically on all of them. -/
inductive EndReason where
  | normalEnd
  | forcedShutdown
  | unrecoverableError
deriving DecidableEq

/-- Final hardware state of one touched channel after SafetyGuard runs. -/
inductive ChannelOutcome where
  | restored (s : PwmState)
  | forcedFull
deriving DecidableEq

/-- Raw duty actually left on the channel: the captured prior duty when
restored, 255 (100%) when restoration failed. -/
def outcomeDuty : ChannelOutcome → ℤ
  | ChannelOutcome.restored s => s.duty
  | ChannelOutcome.forcedFull => 255

/-- Modelled from the spec: SafetyGuard's session teardown (its Rust source
is not under src/).  For every touched channel it attempts to write back the
captured prior state; `restoreOk` says whether that write succeeds.  A
channel whose restoration fails is instead driven to 100% duty and its id is
appended to the reported-failures list. -/
def finalizeSession (_reason : EndReason) (restoreOk : ℕ → Bool)
    (touched : List TouchedChannel) : List (ℕ × ChannelOutcome) × List ℕ :=
  (touched.map (fun c =>
      (c.id, if restoreOk c.id then ChannelOutcome.restored c.prior
             else ChannelOutcome.forcedFull)),
   (touched.filter (fun c => !restoreOk c.id)).map (fun c => c.id))

/-- Two sample touched channels for exercising the SafetyGuard model. -/
def demoTouched : List TouchedChannel :=
  [{ id := 1, prior := { enable := 2, duty := 128 } },
   { id := 2, prior := { enable := 0, duty := 64 } }]

/-- A restoration oracle under which only channel 1 restores successfully. -/
def demoRestoreOk : ℕ → Bool :=
  fun n => n == 1

/-- The channel of `demoTouched` whose restoration fails. -/
def demoFailedChannel : TouchedChannel :=
  { id := 2, prior := { enable := 0, duty := 64 } }

/-- A probe trace used to exercise the ConfidenceScorer model. -/
def demoTrace : ProbeTrace :=
  { baselineNoise := 10, probeDeltas := [100, 300, 500], validationDeltas := [110, 290, 480] }

/-- Helper: `clamp01` always lands in [0, 1]. -/
theorem clamp01_bounds (x : ℚ) : 0 ≤ clamp01 x ∧ clamp01 x ≤ 1 :=
  ⟨le_max_left 0 _, max_le (by norm_num) (min_le_left 1 x)⟩

/-- C1 counterexample: a detected mapping with confidence 0.30 (at most 0.40)
is passed, as-is, into the applied mapping set by confirming the dialog —
the Apply Mappings button is visible for it, `handleConfirm` includes it in
the set handed to `onConfirm`, and no refusal of any kind is surfaced. -/
theorem handleConfirm_passes_low_confidence :
    lowConfidenceMapping.confidence ≤ 2/5 ∧
    applyButtonVisible lowConfidenceModalState = true ∧
    lowConfidenceMapping ∈ (handleConfirm lowConfidenceModalState).applied ∧
    (handleConfirm lowConfidenceModalState).refusalsSurfaced = [] :=
  ⟨by norm_num [lowConfidenceMapping], rfl,
   List.mem_singleton.mpr rfl, rfl⟩

/-- C1 amended: confirming the auto-detect dialog passes the whole detected
mapping list through unchanged — every detected mapping, regardless of its
confidence, enters the applied set, and no refusal is surfaced. -/
theorem handleConfirm_passthrough (s : ModalState) :
    (handleConfirm s).applied = s.detectedMappings ∧
    (handleConfirm s).refusalsSurfaced = [] :=
  ⟨rfl, rfl⟩

/-- C4: the ConfidenceScorer's output always lies in [0, 1], and identical
probe traces produce identical confidence values (the scorer is a pure
function of the trace, with no hidden randomness), for any choice of the
tunable weights. -/
theorem confidenceScore_spec (w1 w2 w3 : ℚ) (tr tr2 : ProbeTrace) (htr : tr2 = tr) :
    0 ≤ confidenceScore w1 w2 w3 tr ∧ confidenceScore w1 w2 w3 tr ≤ 1 ∧
    confidenceScore w1 w2 w3 tr2 = confidenceScore w1 w2 w3 tr := by
  refine ⟨(clamp01_bounds _).1, (clamp01_bounds _).2, ?_⟩
  rw [htr]

/-- C4 witness: the bounds and reproducibility at a concrete trace and
concrete weights. -/
theorem confidenceScore_spec_witness :
    demoTrace = demoTrace ∧
    (0 ≤ confidenceScore (1/2) (1/4) (1/4) demoTrace ∧
     confidenceScore (1/2) (1/4) (1/4) demoTrace ≤ 1 ∧
     confidenceScore (1/2) (1/4) (1/4) demoTrace = confidenceScore (1/2) (1/4) (1/4) demoTrace) :=
  ⟨rfl, confidenceScore_spec (1/2) (1/4) (1/4) demoTrace demoTrace rfl⟩

/-- C5: when the auto-detect invocation fails with an error whose text
indicates missing privileges (`Insufficient permissions` or `run as root`),
the modal shows the root-permissions status message, the detected-mappings
list stays empty, and the session leaves detection mode (no retry occurs:
the catch branch never invokes detection again). -/
theorem startDetection_privilege_error_spec (e : String) (s : ModalState)
    (hperm : (jsIncludes e "Insufficient permissions" || jsIncludes e "run as root") = true)
    (hempty : s.detectedMappings = []) :
    (startDetection (Except.error e) s).statusMessage = rootPermissionsMessage ∧
    (startDetection (Except.error e) s).detectedMappings = [] ∧
    (startDetection (Except.error e) s).detecting = false := by
  refine ⟨?_, hempty, rfl⟩
  simp [startDetection, hperm]

/-- C5 witness: a concrete privilege error on the initial modal state. -/
theorem startDetection_privilege_error_witness :
    (jsIncludes "Error: Insufficient permissions, please run as root"
        "Insufficient permissions" ||
      jsIncludes "Error: Insufficient permissions, please run as root" "run as root") = true ∧
    initialModalState.detectedMappings = [] ∧
    ((startDetection (Except.error "Error: Insufficient permissions, please run as root")
        initialModalState).statusMessage = rootPermissionsMessage ∧
     (startDetection (Except.error "Error: Insufficient permissions, please run as root")
        initialModalState).detectedMappings = [] ∧
     (startDetection (Except.error "Error: Insufficient permissions, please run as root")
        initialModalState).detecting = false) :=
  ⟨by decide, rfl,
   startDetection_privilege_error_spec
     "Error: Insufficient permissions, please run as root" initialModalState
     (by decide) rfl⟩

/-- C6: applying the same confirmed mapping list twice produces exactly the
same application state as applying it once — `handleAutoDetectConfirm` is
idempotent (it overwrites the mappings state and refreshes the chip snapshot,
neither of which depends on the previous state). -/
theorem handleAutoDetectConfirm_idempotent (hw : List HwmonChip)
    (detected : List FanMapping) (s : AppState) :
    handleAutoDetectConfirm hw detected (handleAutoDetectConfirm hw detected s) =
      handleAutoDetectConfirm hw detected s :=
  rfl

/-- C9: in the auto-detect results panel, a measured value of zero for
response time, minimum PWM, or maximum RPM renders as `N/A`, exactly like an
absent measurement — zero is indistinguishable from no measurement. -/
theorem render_zero_indistinguishable :
    renderResponseTime (some 0) = "N/A" ∧ renderResponseTime none = "N/A" ∧
    renderMinPwm (some 0) = "N/A" ∧ renderMinPwm none = "N/A" ∧
    renderMaxRpm (some 0) = "N/A" ∧ renderMaxRpm none = "N/A" ∧
    renderResponseTime (some 0) = renderResponseTime none ∧
    renderMinPwm (some 0) = renderMinPwm none ∧
    renderMaxRpm (some 0) = renderMaxRpm none := by
  norm_num [renderResponseTime, renderMinPwm, renderMaxRpm]

/-- C2: on session end — for any of the three end reasons — every touched
channel either has its captured prior enable/duty state restored, or, when
its restoration fails, is driven to 100% duty (raw 255) and its failure is
reported. -/
theorem finalizeSession_restores_or_forces (reason : EndReason) (restoreOk : ℕ → Bool)
    (touched : List TouchedChannel) (c : TouchedChannel) (hmem : c ∈ touched) :
    (restoreOk c.id = true →
      (c.id, ChannelOutcome.restored c.prior) ∈ (finalizeSession reason restoreOk touched).1) ∧
    (restoreOk c.id = false →
      (c.id, ChannelOutcome.forcedFull) ∈ (finalizeSession reason restoreOk touched).1 ∧
      outcomeDuty ChannelOutcome.forcedFull = 255 ∧
      c.id ∈ (finalizeSession reason restoreOk touched).2) := by
  constructor
  · intro hok
    refine List.mem_map.mpr ⟨c, hmem, ?_⟩
    simp [hok]
  · intro hfail
    refine ⟨List.mem_map.mpr ⟨c, hmem, by simp [hfail]⟩, rfl, ?_⟩
    exact List.mem_map.mpr ⟨c, List.mem_filter.mpr ⟨hmem, by simp [hfail]⟩, rfl⟩

/-- C2 witness: in a concrete session with two touched channels where channel
2's restoration fails, channel 2 ends forced to 100% duty and reported. -/
theorem finalizeSession_restores_or_forces_witness :
    demoFailedChannel ∈ demoTouched ∧
    demoRestoreOk demoFailedChannel.id = false ∧
    ((demoFailedChannel.id, ChannelOutcome.forcedFull) ∈
        (finalizeSession EndReason.unrecoverableError demoRestoreOk demoTouched).1 ∧
      outcomeDuty ChannelOutcome.forcedFull = 255 ∧
      demoFailedChannel.id ∈
        (finalizeSession EndReason.unrecoverableError demoRestoreOk demoTouched).2) :=
  ⟨by decide, rfl,
   (finalizeSession_restores_or_forces EndReason.unrecoverableError demoRestoreOk
       demoTouched demoFailedChannel (by decide)).2 rfl⟩

/-- Helper: segment evaluation stays within [0, 100] whenever the control
points have strictly increasing temperatures and duties in [0, 100]. -/
theorem evalSegments_bounds :
    ∀ (pts : List (ℚ × ℚ)) (t : ℚ), strictlyIncreasingTemps pts → dutiesInRange pts →
      0 ≤ evalSegments pts t ∧ evalSegments pts t ≤ 100 := by
  intro pts
  induction pts with
  | nil => intro t _ _; simp [evalSegments]
  | cons p rest ih =>
    intro t hinc hd
    cases rest with
    | nil => simpa [evalSegments] using hd p (by simp)
    | cons q rest2 =>
      have hpq : p.1 < q.1 := (List.chain'_cons.mp hinc).1
      have hinc2 : strictlyIncreasingTemps (q :: rest2) := (List.chain'_cons.mp hinc).2
      have hd2 : dutiesInRange (q :: rest2) := fun x hx => hd x (List.mem_cons_of_mem _ hx)
      have hdp := hd p (by simp)
      have hdq := hd q (by simp)
      by_cases h1 : t ≤ p.1
      · simpa [evalSegments, h1] using hdp
      · by_cases h2 : t ≤ q.1
        · have hval : evalSegments (p :: q :: rest2) t =
              p.2 + (t - p.1) * (q.2 - p.2) / (q.1 - p.1) := by
            simp [evalSegments, h1, h2]
          have hden : 0 < q.1 - p.1 := by linarith
          have ht1 : p.1 < t := lt_of_not_le h1
          have hrw : p.2 + (t - p.1) * (q.2 - p.2) / (q.1 - p.1) =
              p.2 + (t - p.1) / (q.1 - p.1) * (q.2 - p.2) := by ring
          have hs0 : 0 ≤ (t - p.1) / (q.1 - p.1) := div_nonneg (by linarith) (le_of_lt hden)
          have hs1 : (t - p.1) / (q.1 - p.1) ≤ 1 := by
            rw [div_le_one hden]; linarith
          rw [hval, hrw]
          constructor
          · nlinarith [hdp.1, hdp.2, hdq.1, hdq.2]
          · nlinarith [hdp.1, hdp.2, hdq.1, hdq.2]
        · have hval : evalSegments (p :: q :: rest2) t = evalSegments (q :: rest2) t := by
            simp [evalSegments, h1, h2]
          rw [hval]
          exact ih t hinc2 hd2

/-- C3: curve evaluation is a pure function into [0, 100] for every curve
with strictly increasing temperatures and duty percentages in [0, 100];
linear interpolation between bracketing points, clamped outside the domain:
on the example curve (30,30), (60,50), (80,100) it gives 40 at 45, 30 at 20
(clamped below), and 100 at 90 (clamped above). -/
theorem curveEngine_eval_spec (c : Curve) (t : ℚ)
    (hinc : strictlyIncreasingTemps c.points) (hd : dutiesInRange c.points) :
    (0 ≤ evalCurve c t ∧ evalCurve c t ≤ 100) ∧
    evalCurve demoCurve 45 = 40 ∧
    evalCurve demoCurve 20 = 30 ∧
    evalCurve demoCurve 90 = 100 := by
  refine ⟨evalSegments_bounds c.points t hinc hd, ?_, ?_, ?_⟩ <;>
    norm_num [evalCurve, demoCurve, evalSegments]

/-- C3 witness: the bounds at the example curve and temperature 45. -/
theorem curveEngine_eval_spec_witness :
    strictlyIncreasingTemps demoCurve.points ∧
    dutiesInRange demoCurve.points ∧
    ((0 ≤ evalCurve demoCurve 45 ∧ evalCurve demoCurve 45 ≤ 100) ∧
      evalCurve demoCurve 45 = 40 ∧
      evalCurve demoCurve 20 = 30 ∧
      evalCurve demoCurve 90 = 100) := by
  have hinc : strictlyIncreasingTemps demoCurve.points := by
    norm_num [strictlyIncreasingTemps, demoCurve]
  have hd : dutiesInRange demoCurve.points := by
    norm_num [dutiesInRange, demoCurve]
  exact ⟨hinc, hd, curveEngine_eval_spec demoCurve 45 hinc hd⟩

/-- C7: for a raw PWM value in [0, 255] with no precomputed percent, the
displayed percentage is exactly the rounded value of `v / 255 * 100`, lies in
[0, 100], maps 0 to 0% and 255 to 100%, and the mapping panel's
minimum-start-duty conversion is the very same function. -/
theorem pwmDisplayPercent_spec (v : ℤ) (h0 : 0 ≤ v) (h255 : v ≤ 255) :
    0 ≤ pwmDisplayPercent v ∧ pwmDisplayPercent v ≤ 100 ∧
    pwmDisplayPercent v = ⌊(v : ℚ) / 255 * 100 + 1/2⌋ ∧
    pwmDisplayPercent 0 = 0 ∧ pwmDisplayPercent 255 = 100 ∧
    minPwmStartPercent v = pwmDisplayPercent v := by
  have hv0 : (0 : ℚ) ≤ (v : ℚ) := by exact_mod_cast h0
  have hv255 : (v : ℚ) ≤ 255 := by exact_mod_cast h255
  have hlow : 0 ≤ pwmDisplayPercent v := by
    rw [pwmDisplayPercent, jsRound]
    exact Int.le_floor.mpr (by push_cast; nlinarith)
  have hhigh : pwmDisplayPercent v ≤ 100 := by
    rw [pwmDisplayPercent, jsRound]
    have h1 : (v : ℚ) / 255 * 100 + 1/2 ≤ 201/2 := by nlinarith
    have h2 : (⌊(201/2 : ℚ)⌋ : ℤ) = 100 := by
      rw [Int.floor_eq_iff]; norm_num
    calc ⌊(v : ℚ) / 255 * 100 + 1/2⌋ ≤ ⌊(201/2 : ℚ)⌋ := Int.floor_le_floor h1
      _ = 100 := h2
  have hzero : pwmDisplayPercent 0 = 0 := by
    rw [pwmDisplayPercent, jsRound]
    norm_num
  have hfull : pwmDisplayPercent 255 = 100 := by
    rw [pwmDisplayPercent, jsRound]
    norm_num
  exact ⟨hlow, hhigh, rfl, hzero, hfull, rfl⟩

/-- C7 witness: the conversion at the concrete raw value 128 (displays
50%). -/
theorem pwmDisplayPercent_spec_witness :
    (0 : ℤ) ≤ 128 ∧ (128 : ℤ) ≤ 255 ∧
    (0 ≤ pwmDisplayPercent 128 ∧ pwmDisplayPercent 128 ≤ 100 ∧
      pwmDisplayPercent 128 = ⌊((128 : ℤ) : ℚ) / 255 * 100 + 1/2⌋ ∧
      pwmDisplayPercent 0 = 0 ∧ pwmDisplayPercent 255 = 100 ∧
      minPwmStartPercent 128 = pwmDisplayPercent 128) :=
  ⟨by decide, by decide, pwmDisplayPercent_spec 128 (by decide) (by decide)⟩

/-- Helper: a card produces no validation errors exactly when it fits the
grid. -/
theorem cardErrors_eq_nil_iff (columns : ℤ) (c : Card) :
    cardErrors columns c = [] ↔ cardFits columns c := by
  unfold cardErrors cardFits
  by_cases h1 : c.position.col + c.position.w - 1 > columns <;>
    by_cases h2 : c.position.col < 1 ∨ c.position.row < 1 <;>
      simp [h1, h2] <;> omega

/-- C8: `validateLayout` returns no errors exactly when every card of every
section has a positive column and row and does not extend past the last grid
column; and every card violating one of those bounds contributes at least one
error message containing that card's id.  (The embedding is a pure function
of the configuration: the source only reads `config`, never writes it.) -/
theorem validateLayout_spec (config : LayoutConfig) :
    (validateLayout config = [] ↔
      ∀ s ∈ config.main.sections, ∀ c ∈ s.cards, cardFits config.main.grid.columns c) ∧
    (∀ s ∈ config.main.sections, ∀ c ∈ s.cards,
      ¬ cardFits config.main.grid.columns c →
        ∃ err ∈ validateLayout config, ∃ p q, err = p ++ c.id ++ q) := by
  constructor
  · simp [validateLayout, List.flatMap_eq_nil_iff, cardErrors_eq_nil_iff]
  · intro s hs c hc hviol
    have hlift : ∀ err ∈ cardErrors config.main.grid.columns c, err ∈ validateLayout config := by
      intro err herr
      exact List.mem_flatMap.mpr ⟨s, hs, List.mem_flatMap.mpr ⟨c, hc, herr⟩⟩
    by_cases hw : c.position.col + c.position.w - 1 > config.main.grid.columns
    · refine ⟨widthError config.main.grid.columns c, hlift _ ?_, "Card ",
        " exceeds grid width (col: " ++ toString c.position.col ++
          ", width: " ++ toString c.position.w ++
          ", max columns: " ++ toString config.main.grid.columns ++ ")", rfl⟩
      simp [cardErrors, hw]
    · have hpos : c.position.col < 1 ∨ c.position.row < 1 := by
        unfold cardFits at hviol; omega
      refine ⟨positionError c, hlift _ ?_, "Card ",
        " has invalid position (col: " ++ toString c.position.col ++
          ", row: " ++ toString c.position.row ++ ")", rfl⟩
      simp [cardErrors, hpos]

/-- C8 witness: in the sample configuration, the card placed at column 0 is
rejected and its id appears in an error message of `validateLayout`. -/
theorem validateLayout_spec_witness :
    sampleSection ∈ sampleConfig.main.sections ∧
    badCard ∈ sampleSection.cards ∧
    ¬ cardFits sampleConfig.main.grid.columns badCard ∧
    ∃ err ∈ validateLayout sampleConfig, ∃ p q, err = p ++ badCard.id ++ q :=
  ⟨List.mem_singleton.mpr rfl, List.mem_cons_self _ _, by decide,
   (validateLayout_spec sampleConfig).2 sampleSection (List.mem_singleton.mpr rfl)
     badCard (List.mem_cons_self _ _) (by decide)⟩

/-- Helper: the section loop of `findCardById` returns `none` exactly when no
section in the list holds a card with the sought id. -/
theorem findCardInSections_eq_none_iff (cardId : String) :
    ∀ l : List Section, findCardInSections cardId l = none ↔
      ∀ s ∈ l, ∀ c ∈ s.cards, c.id ≠ cardId := by
  intro l
  induction l with
  | nil => simp [findCardInSections]
  | cons s rest ih =>
    rw [findCardInSections]
    cases hfind : s.cards.find? (fun c => c.id == cardId) with
    | some c =>
      simp only [hfind]
      constructor
      · intro h; exact absurd h (by simp)
      · intro h
        exact absurd (by simpa using List.find?_some hfind)
          (h s (List.mem_cons_self _ _) c (List.mem_of_find?_eq_some hfind))
    | none =>
      have hnone : ∀ c ∈ s.cards, c.id ≠ cardId := by
        intro c hc
        have := List.find?_eq_none.mp hfind c hc
        simpa using this
      simp only [hfind]
      rw [ih]
      constructor
      · intro h s2 hs2 c hc
        rcases List.mem_cons.mp hs2 with h1 | h1
        · subst h1; exact hnone c hc
        · exact h s2 h1 c hc
      · intro h s2 hs2 c hc
        exact h s2 (List.mem_cons_of_mem _ hs2) c hc

/-- Helper: when the section loop returns a card/section pair, the card's id
matches, the returned section is the first section holding a match, and the
returned card is the first match within that section. -/
theorem findCardInSections_eq_some (cardId : String) :
    ∀ (l : List Section) (c : Card) (s : Section),
      findCardInSections cardId l = some (c, s) →
        c.id = cardId ∧
        (∃ pre post, l = pre ++ s :: post ∧
          (∀ sx ∈ pre, ∀ cx ∈ sx.cards, cx.id ≠ cardId) ∧
          ∃ cpre cpost, s.cards = cpre ++ c :: cpost ∧ ∀ cx ∈ cpre, cx.id ≠ cardId) := by
  intro l
  induction l with
  | nil => intro c s h; simp [findCardInSections] at h
  | cons s0 rest ih =>
    intro c s h
    rw [findCardInSections] at h
    cases hfind : s0.cards.find? (fun x => x.id == cardId) with
    | some c0 =>
      rw [hfind] at h
      simp only [Option.some.injEq, Prod.mk.injEq] at h
      obtain ⟨hc, hs⟩ := h
      subst hc; subst hs
      obtain ⟨hbeq, cpre, cpost, hcards, hfirst⟩ := List.find?_eq_some.mp hfind
      refine ⟨by simpa using hbeq, [], rest, rfl, by simp, cpre, cpost, hcards, ?_⟩
      intro cx hcx
      simpa using hfirst cx hcx
    | none =>
      rw [hfind] at h
      obtain ⟨hc, pre, post, hl, hpre, hin⟩ := ih c s h
      have hnone : ∀ cx ∈ s0.cards, cx.id ≠ cardId := by
        intro cx hcx
        simpa using List.find?_eq_none.mp hfind cx hcx
      refine ⟨hc, s0 :: pre, post, by rw [hl, List.cons_append], ?_, hin⟩
      intro sx hsx cx hcx
      rcases List.mem_cons.mp hsx with h1 | h1
      · subst h1; exact hnone cx hcx
      · exact hpre sx h1 cx hcx

/-- C10: `findCardById` returns `none` exactly when no section of the
configuration holds a card with the sought id; otherwise it returns the first
matching card — in section order, then card order within the section —
paired with the section containing it, and the returned card's id equals the
sought id. -/
theorem findCardById_spec (config : LayoutConfig) (cardId : String) :
    (findCardById config cardId = none ↔
      ∀ s ∈ config.main.sections, ∀ c ∈ s.cards, c.id ≠ cardId) ∧
    (∀ c s, findCardById config cardId = some (c, s) →
      c.id = cardId ∧
      (∃ pre post, config.main.sections = pre ++ s :: post ∧
        (∀ sx ∈ pre, ∀ cx ∈ sx.cards, cx.id ≠ cardId) ∧
        ∃ cpre cpost, s.cards = cpre ++ c :: cpost ∧ ∀ cx ∈ cpre, cx.id ≠ cardId)) :=
  ⟨findCardInSections_eq_none_iff cardId config.main.sections,
   fun c s h => findCardInSections_eq_some cardId config.main.sections c s h⟩

/-- C10 witness: in the sample configuration, looking up the good card's id
finds it, in its section, behind the non-matching bad card. -/
theorem findCardById_spec_witness :
    findCardById sampleConfig "gpu-sensor-card" = some (goodCard, sampleSection) ∧
    (goodCard.id = "gpu-sensor-card" ∧
      (∃ pre post, sampleConfig.main.sections = pre ++ sampleSection :: post ∧
        (∀ sx ∈ pre, ∀ cx ∈ sx.cards, cx.id ≠ "gpu-sensor-card") ∧
        ∃ cpre cpost, sampleSection.cards = cpre ++ goodCard :: cpost ∧
          ∀ cx ∈ cpre, cx.id ≠ "gpu-sensor-card")) :=
  ⟨by decide,
   (findCardById_spec sampleConfig "gpu-sensor-card").2 goodCard sampleSection (by decide)⟩

end Hyperfan
